import Mathlib

set_option maxHeartbeats 1000000

/-! Verification development for the pipette pipeline engine.

The embedding below models the two generations of the engine that ship in the
repository: namespace `Pipes` embeds `src/src/pipette/pipes.py` (the live
module; the repository's test suite imports `pipette.pipes`), and namespace
`Legacy` embeds `src/src/pipette/__init__.py` where it is the only place a
behaviour is implemented.  External collaborators (the YAML/JSON loaders, the
OS spawn primitive, file handles) are passed in as explicit function
parameters, following the specification's collaborator boundary. -/

/-- Scalar parameter values: the definition files and streams carry strings and
integers. -/
inductive PVal where
  | i : Int → PVal
  | s : String → PVal
deriving DecidableEq

/-- A Python dict with string keys, modelled as a partial map. -/
def Params : Type := String → Option PVal

/-- The empty dict. -/
def emptyP : Params := fun _ => Option.none

/-- Python `d[k] = v`. -/
def setKey (m : Params) (k : String) (v : PVal) : Params :=
  fun q => if q = k then some v else m q

/-- Python `base.update(other)`: every key of `other` is written into `base`,
so `other` wins on collisions. -/
def dictUpdate (base other : Params) : Params :=
  fun k => match other k with
  | some v => some v
  | Option.none => base k

/-- The Python exceptions that the embedded code can raise, one constructor per
raise site or built-in failure. -/
inductive PyErr where
  | parserError (msg : String)
  | typeErrorUpdateNone
  | valueErrorUpdateScalar
  | jsonValueError (msg : String)
  | attributeError (missing : String)
  | importError (ptype : String) (namespaces : List String)
  | wrongPipeFilename (fname : String)
  | ioError (msg : String)
  | unimplementedStage
deriving DecidableEq

/-- Result of the external `yaml.load` collaborator: an empty document loads to
`None`, otherwise a mapping or a plain scalar. -/
inductive YamlDoc where
  | null
  | mapping (m : Params)
  | scalar (v : PVal)

namespace Pipes

/-- Embedding of `Process.parse_input` (pipes.py lines 38-49).  The input
stream has already been read to `inputText` (the `basestring` branch and the
`read()` branch both yield the full text).  `yamlLoad` models the external
`yaml.load` collaborator.  The final statement is
`self.parameters.update(input_parameters)`: when the loaded document is `None`
(an empty stream) `dict.update(None)` raises `TypeError`, and when it is a
non-mapping scalar `dict.update` raises as well; both raises are modelled by
their `PyErr` constructors. -/
def parse_input (yamlLoad : String → Except String YamlDoc) (params : Params)
    (inputText : String) : Except PyErr Params :=
  match yamlLoad inputText with
  | .error e => .error (.parserError e)
  | .ok .null => .error .typeErrorUpdateNone
  | .ok (.scalar _) => .error .valueErrorUpdateScalar
  | .ok (.mapping m) => .ok (dictUpdate params m)

/-- Embedding of the parameter seeding done by `Pipe._instanciate_process`
(pipes.py lines 195-211): the fresh process starts with an empty `parameters`
dict, `default_parameters` from the stage description is `update`d into it, and
then `parameters['name']` is set to the description's `name` or the lower-cased
class name. -/
def instanciate_parameters (default_parameters : Params) (specName : Option String)
    (clsNameLower : String) : Params :=
  setKey (dictUpdate emptyP default_parameters) "name"
    (.s (specName.getD clsNameLower))

/-- Embedding of the first two lifecycle steps of `Process.execute`
(pipes.py lines 65-67): `self.parameters.update(default_parameters)` — the
argument `Pipe.communicate` passes is the pipeline-wide `pipe_parameters` —
followed by `put_on`, which is exactly `parse_input`. -/
def execute_merge_and_input (yamlLoad : String → Except String YamlDoc)
    (params pipeParams : Params) (inputText : String) : Except PyErr Params :=
  parse_input yamlLoad (dictUpdate params pipeParams) inputText

end Pipes

namespace Legacy

/-- Embedding of `Process.parse_input` from the legacy module
(`__init__.py` lines 48-55): the stream text is passed through the external
`json_minify` collaborator, an empty result is an explicit no-op (`return`),
otherwise `json.loads` either raises `ValueError` or yields a mapping that is
`update`d into `parameters`. -/
def parse_input (minify : String → String)
    (jsonLoads : String → Except String Params) (params : Params)
    (inputText : String) : Except PyErr Params :=
  let jd := minify inputText
  if jd = "" then .ok params
  else match jsonLoads jd with
  | .error e => .error (.jsonValueError e)
  | .ok m => .ok (dictUpdate params m)

end Legacy

/-- A concrete instance of the external `yaml.load` collaborator used by the
closed evaluation theorems below: the empty document loads to `None`
(PyYAML behaviour), the document `x: 3` loads to the mapping with x = 3,
and an unterminated document fails to parse. -/
def yamlLoadC : String → Except String YamlDoc := fun t =>
  if t = "" then .ok .null
  else if t = "x: 3" then .ok (.mapping (setKey emptyP "x" (.i 3)))
  else .error "while parsing a flow node"

/-- A concrete instance of the external `json.loads` collaborator that rejects
every document; only its behaviour off the empty string matters below. -/
def jsonLoadsC : String → Except String Params := fun _ =>
  .error "No JSON object could be decoded"

/-- The stage's own defaults in the specification's precedence scenario. -/
def stageDefaultsX1 : Params := setKey emptyP "x" (.i 1)

/-- The pipeline-wide overrides in the specification's precedence scenario. -/
def pipeParamsX2 : Params := setKey emptyP "x" (.i 2)

/-- Looks up the key x in the parameters produced by a lifecycle step. -/
def xAfter (e : Except PyErr Params) : Except PyErr (Option PVal) :=
  e.map fun m => m "x"

/-- Parameters of a shell stage with no file redirection. -/
def bashParamsNoFiles : Params := setKey emptyP "bash_command" (.s "echo hi")

/-- Parameters of a shell stage with both streams redirected to files. -/
def bashParamsBothFiles : Params :=
  setKey (setKey (setKey emptyP "bash_command" (.s "cat x"))
    "output_filepath" (.s "out.txt")) "error_filepath" (.s "err.txt")

/-- Import environment in which the stage type `T` is resolvable under the
second namespace b — module b imports fine (and would expose the class) —
while nothing else is importable. -/
def importableC : String → Bool := fun m => m = "b"

namespace Legacy

/-- Model of method dispatch on a Python 2 `StringIO` buffer (standard-library
collaborator): the accessor that returns the captured text is named `getvalue`;
calling any other attribute raises `AttributeError`. -/
def stringBufCall (buf : String) (attr : String) : Except PyErr String :=
  if attr = "getvalue" then .ok buf else .error (.attributeError attr)

/-- Embedding of the result-collection tail of `BashCommand.run`
(`__init__.py` lines 132-137).  The subprocess call itself is the opaque
external collaborator; `outText` and `errText` are the texts captured in the
in-memory output and error buffers.  The code runs
`self.results.update(self.parameters)` and then, for each stream whose
`*_filepath` key is absent from `results`, stores `command_output.get_value()`
(resp. `command_error.get_value()`) — note the attribute name written in the
source is `get_value`. -/
def bash_collect_results (params : Params) (outText errText : String) :
    Except PyErr Params :=
  let results := dictUpdate emptyP params
  match (if (results "output_filepath").isSome then Except.ok results
         else match stringBufCall outText "get_value" with
              | .error e => .error e
              | .ok v => .ok (setKey results "output" (.s v))) with
  | .error e => .error e
  | .ok results1 =>
    if (results1 "error_filepath").isSome then .ok results1
    else match stringBufCall errText "get_value" with
         | .error e => .error e
         | .ok v => .ok (setKey results1 "error" (.s v))

end Legacy

namespace Pipes

/-- Python `s.rsplit('.', 1)`: everything before the last dot, and the trailing
component after it.  (When `s` has no dot, Python's two-variable unpacking of
the one-element list would raise; that case is unreachable here because the
loop has always prefixed a namespace and a dot, and it is modelled as an empty
module path.) -/
def rsplitDot (s : String) : String × String :=
  let rev := s.toList.reverse
  if rev.contains '.' then
    (String.mk ((rev.dropWhile (fun c => c ≠ '.')).tail.reverse),
     String.mk ((rev.takeWhile (fun c => c ≠ '.')).reverse))
  else (s, "")

/-- The loop of `Pipe.find_process_class` (pipes.py lines 215-221), statement
for statement: the loop variable `process_type` is reassigned to
`process_namespace + '.' + process_type` on every iteration, the pair
`module_name, class_name` comes from `rsplit('.', 1)`, and a successful
`__import__` of `module_name` overwrites `module`.  `importable m` models
whether importing the module path `m` succeeds.  Returns the final value of
`process_type` together with the final `module`. -/
def findLoop (importable : String → Bool) :
    List String → String → Option String → String × Option String
  | [], pt, m => (pt, m)
  | ns :: rest, pt, m =>
    let pt2 := ns ++ "." ++ pt
    let modName := (rsplitDot pt2).1
    let m2 := if importable modName then some modName else m
    findLoop importable rest pt2 m2

/-- Embedding of `Pipe.find_process_class` (pipes.py lines 213-225): after the
loop, a still-unset `module` raises `ImportError` naming the final (mangled)
`process_type` and the namespace list; otherwise `getattr(module, class_name)`
is returned, where `class_name` stems from the last loop iteration's `rsplit`.
`hasAttr mod cls` models whether the imported module has the attribute. -/
def find_process_class (importable : String → Bool)
    (hasAttr : String → String → Bool) (namespaces : List String)
    (ptype : String) : Except PyErr (String × String) :=
  match findLoop importable namespaces ptype Option.none with
  | (ptFinal, Option.none) => .error (.importError ptFinal namespaces)
  | (ptFinal, some modName) =>
    let clsName := (rsplitDot ptFinal).2
    if hasAttr modName clsName then .ok (modName, clsName)
    else .error (.attributeError clsName)

end Pipes

namespace Pipes

/-- The required definition-file extension (`Pipe.pipe_extension`, pipes.py
lines 154-156). -/
def pipe_extension : String := ".pipe"

/-- The observable steps of `Pipe.parse_definition_file`, in source order. -/
inductive DefEvent where
  | checkedName
  | openedFile
  | parsedContent
deriving DecidableEq

/-- Python `os.path.basename`: the component after the last slash. -/
def basenameOf (p : String) : String :=
  String.mk ((p.toList.reverse.takeWhile (fun c => c ≠ '/')).reverse)

/-- Python `s.endswith(ext)`. -/
def endsWithChars (s ext : String) : Bool :=
  List.isPrefixOf ext.toList.reverse s.toList.reverse

/-- Python `fname[:-k]`: the string without its last `k` characters. -/
def dropLastChars (s : String) (k : Nat) : String :=
  String.mk (s.toList.take (s.toList.length - k))

/-- Embedding of `Pipe.parse_definition_file` together with
`Pipe._parse_definition` (pipes.py lines 158-188).  `loadDef` models the
external `yaml.load` applied to the opened stream, `content` is the file's
text.  The second component is the ordered trace of observable steps: the
basename's extension is checked first and a wrong filename raises immediately;
only on the success branch is the file opened and its content parsed (a parse
failure is re-raised as an `IOError`).  `_parse_definition` starts the
definition dict at name = the suffix-stripped basename and then `update`s the
loaded mapping into it. -/
def parse_definition_file (loadDef : String → Except String Params)
    (filepath : String) (content : String) :
    Except PyErr Params × List DefEvent :=
  let fname := basenameOf filepath
  if endsWithChars fname pipe_extension then
    let pipeName := dropLastChars fname pipe_extension.toList.length
    match loadDef content with
    | .error e =>
      (.error (.ioError e), [.checkedName, .openedFile, .parsedContent])
    | .ok d =>
      (.ok (dictUpdate (setKey emptyP "name" (.s pipeName)) d),
       [.checkedName, .openedFile, .parsedContent])
  else (.error (.wrongPipeFilename fname), [.checkedName])

/-- Embedding of `Process.reduce` (pipes.py lines 84-89).  `bake` models
`self.bake_output()` — the `yaml.dump` serialization of `results` — and
`writeOut` models `self.streams['output'].write`.  The boolean records whether
`self.flush_streams()` ran.  The three statements are straight-line with no
try/finally: a raise in an earlier statement propagates and the later
statements do not run. -/
def reduce (bake : Except PyErr String)
    (writeOut : String → Except PyErr Unit) : Except PyErr Unit × Bool :=
  match bake with
  | .error e => (.error e, false)
  | .ok output =>
    match writeOut output with
    | .error e => (.error e, false)
    | .ok _ => (.ok (), true)

/-- The body of the abstract base `Process.run` (pipes.py lines 76-82): a bare
raise.  (In Python the statement written there, `raise NotImplemented(...)`,
itself raises a `TypeError` because `NotImplemented` is not callable; either
way invoking the base `run` fails, and the failure raised at this site is
modelled as the unimplemented-stage error.) -/
def base_run : Params → Except PyErr Params := fun _ => .error .unimplementedStage

/-- Embedding of the full `Process.execute` lifecycle (pipes.py lines 65-69)
with a pluggable `run` step: `update` the pipeline-wide parameters into
`self.parameters`, `put_on` (= `parse_input`), `run` (producing `results` from
the merged parameters), then `reduce`, whose written output — the `yamlDump`
serialization of the results — is returned alongside the final parameters. -/
def execute (yamlLoad : String → Except String YamlDoc)
    (runF : Params → Except PyErr Params) (yamlDump : Params → String)
    (params pipeParams : Params) (inputText : String) :
    Except PyErr (Params × String) :=
  match parse_input yamlLoad (dictUpdate params pipeParams) inputText with
  | .error e => .error e
  | .ok p2 =>
    match runF p2 with
    | .error e => .error e
    | .ok results => .ok (results, yamlDump results)

end Pipes

/-- Characters carried on a stream. -/
abbrev Text := List Char

/-- A stream handle as held in a `streams` dict: one of the three
pipeline-level handles, an allocated in-memory buffer identified by its
allocation number, or Python's `None` (the initial value of the local
`input_stream`). -/
inductive Handle where
  | pipeIn
  | pipeOut
  | pipeErr
  | buffer (id : Nat)
  | pynone
deriving DecidableEq

/-- An in-memory buffer (a `StringIO` object): its content and the current
stream position. -/
structure PBuffer where
  content : Text
  pos : Nat
deriving DecidableEq

/-- A freshly constructed empty buffer, `StringIO()`. -/
def emptyBuf : PBuffer := ⟨[], 0⟩

/-- `read()` on a buffer: returns the text from the current position to the
end and leaves the position at the end. -/
def bufRead (b : PBuffer) : Text × PBuffer :=
  (b.content.drop b.pos, ⟨b.content, b.content.length⟩)

/-- `write(t)` on a buffer: overwrites from the current position on and
advances the position past the written text. -/
def bufWrite (b : PBuffer) (t : Text) : PBuffer :=
  ⟨b.content.take b.pos ++ t ++ b.content.drop (b.pos + t.length),
   b.pos + t.length⟩

/-- Observation record of one stage's execution inside the `communicate` loop:
the three handles its `streams` dict held when `execute` ran, the text its
`parse_input` consumed from the input handle, and the input buffer's position
at the moment of that read (`none` when the input was the external
pipeline-level input stream). -/
structure StageRec where
  inH : Handle
  outH : Handle
  errH : Handle
  readText : Text
  posAtRead : Option Nat
deriving DecidableEq

/-- Record of a stage that has not run. -/
def dummyRec : StageRec := ⟨.pynone, .pynone, .pynone, [], Option.none⟩

/-- State of the `Pipe.communicate` loop: the store of allocated buffers
(`buf i` is the buffer with allocation number `i`, `nbufs` of them so far),
the two local variables `input_stream` and `output_stream` (as buffer ids),
the per-stage observation records, and the texts written to the
pipeline-level output stream. -/
structure WireState where
  buf : Nat → PBuffer
  nbufs : Nat
  inS : Option Nat
  outS : Nat
  recs : Nat → StageRec
  outSink : List Text

/-- Replaces buffer `i` in the store. -/
def setBuf (st : WireState) (i : Nat) (b : PBuffer) : WireState :=
  { st with buf := fun j => if j = i then b else st.buf j }

/-- Stores the observation record of stage `i`. -/
def setRec (st : WireState) (i : Nat) (r : StageRec) : WireState :=
  { st with recs := fun j => if j = i then r else st.recs j }

namespace Pipes

/-- One iteration of the `Pipe.communicate` loop (pipes.py lines 255-292) at
`index`, for a chain of `n` stages, mirroring the statements in source order.
Stream wiring: `streams['error']` is bound to the pipeline error stream; the
first stage's `streams['input']` to the pipeline input stream, every other
stage's to the local `input_stream`; the last stage's (`index == chain_size -
1`) `streams['output']` to the pipeline output stream, every other stage's to
the local `output_stream`.  Then `self.execute_process(process, ...)` runs the
lifecycle, whose stream effects are: `parse_input` reads the whole input
stream, and `reduce` writes the serialized results of stage `index` — here
abstracted as the text `w index` — to the output stream (the parameter and
result bookkeeping of `execute` is modelled separately by `Pipes.execute`;
`pipeInText` is the text the external pipeline-level input stream yields).
Finally the wiring maintenance runs: `input_stream = output_stream`,
`input_stream.seek(0)` (a buffer is always seekable, so the tolerated
single-stage `IOError` branch is not reachable), `output_stream = StringIO()`.
-/
def commStep (w : Nat → Text) (pipeInText : Text) (n index : Nat)
    (st : WireState) : WireState :=
  let inH : Handle := if index = 0 then .pipeIn
    else match st.inS with
    | some b => .buffer b
    | Option.none => .pynone
  let outH : Handle := if index = n - 1 then .pipeOut else .buffer st.outS
  let readRes : Text × Option Nat × WireState :=
    match inH with
    | .buffer b =>
      let r := bufRead (st.buf b)
      (r.1, some (st.buf b).pos, setBuf st b r.2)
    | .pipeIn => (pipeInText, Option.none, st)
    | _ => ([], Option.none, st)
  let st1 := readRes.2.2
  let st2 : WireState :=
    match outH with
    | .buffer b => setBuf st1 b (bufWrite (st1.buf b) (w index))
    | .pipeOut => { st1 with outSink := st1.outSink ++ [w index] }
    | _ => st1
  let st3 := setRec st2 index ⟨inH, outH, .pipeErr, readRes.1, readRes.2.1⟩
  let st4 := { st3 with inS := some st3.outS }
  let st5 := setBuf st4 st4.outS ⟨(st4.buf st4.outS).content, 0⟩
  let st6 := setBuf st5 st5.nbufs emptyBuf
  { st6 with nbufs := st6.nbufs + 1, outS := st6.nbufs }

/-- The loop of `communicate`, iterated over the given stage indices. -/
def commList (w : Nat → Text) (pipeInText : Text) (n : Nat) :
    List Nat → WireState → WireState
  | [], st => st
  | i :: rest, st => commList w pipeInText n rest (commStep w pipeInText n i st)

/-- The state `Pipe.communicate` starts its loop from (pipes.py lines
249-254): no stage has run, one buffer — the initial `output_stream =
StringIO()` — is allocated, and `input_stream` is `None`. -/
def commInit : WireState :=
  { buf := fun _ => emptyBuf, nbufs := 1, inS := Option.none, outS := 0,
    recs := fun _ => dummyRec, outSink := [] }

/-- Embedding of the stream wiring and hand-off of `Pipe.communicate`
(pipes.py lines 238-292) for a chain of `n` stages (the code asserts
`chain_size > 0` before the loop). -/
def communicate (w : Nat → Text) (pipeInText : Text) (n : Nat) : WireState :=
  commList w pipeInText n (List.range n) commInit

/-- The record the loop is expected to produce for stage `j` of `n`. -/
def recSpec (w : Nat → Text) (pipeInText : Text) (n j : Nat) : StageRec :=
  ⟨if j = 0 then .pipeIn else .buffer (j - 1),
   if j = n - 1 then .pipeOut else .buffer j,
   .pipeErr,
   if j = 0 then pipeInText else w (j - 1),
   if j = 0 then Option.none else some 0⟩

/-- Loop invariant of `communicate` after `k` of the `n` iterations. -/
def Inv (w : Nat → Text) (pipeInText : Text) (n k : Nat) (st : WireState) :
    Prop :=
  st.nbufs = k + 1 ∧ st.outS = k ∧
  st.inS = (if k = 0 then Option.none else some (k - 1)) ∧
  st.buf k = emptyBuf ∧
  (0 < k → st.buf (k - 1)
    = ⟨(if k - 1 = n - 1 then [] else w (k - 1)), 0⟩) ∧
  (∀ j, j < k → st.recs j = recSpec w pipeInText n j)

end Pipes

/-- A stream value held in a `pipe_streams` dict: one of the three
process-standard streams or a caller-supplied handle. -/
inductive SVal where
  | stdinV
  | stdoutV
  | stderrV
  | custom (n : Nat)
deriving DecidableEq

/-- A dict mapping stream names to stream values. -/
def StreamDict : Type := String → Option SVal

/-- A heap of stream dicts with explicit object identity, so that mutation —
or its absence — is observable: `vals r` is the dict currently referenced by
`r`, and `next` is the next unused reference (every live reference is below
it). -/
structure DictHeap where
  vals : Nat → StreamDict
  next : Nat

namespace Pipes

/-- Embedding of the static method `Pipe._get_default_streams` (pipes.py lines
227-236) over the explicit heap.  `streams` is the reference to the caller's
dict.  `result = \x7b\x7d` allocates a fresh dict, and each of the three
statements `result[name] = streams.get(name, default)` reads from the caller's
dict and writes into the fresh dict only; the fresh reference is returned.
`Pipe.communicate` (line 249) rebinds its local `pipe_streams` to this fresh
dict, which is the only use it makes of the caller's mapping. -/
def get_default_streams (h : DictHeap) (streams : Nat) : Nat × DictHeap :=
  let r := h.next
  let h0 : DictHeap :=
    { vals := fun q => if q = r then (fun _ => Option.none) else h.vals q,
      next := h.next + 1 }
  let write := fun (hh : DictHeap) (k : String) (v : SVal) =>
    { hh with vals := fun q => if q = r then
        (fun key => if key = k then some v else hh.vals q key)
      else hh.vals q }
  let getD := fun (k : String) (d : SVal) => (h.vals streams k).getD d
  let h1 := write h0 "input" (getD "input" .stdinV)
  let h2 := write h1 "output" (getD "output" .stdoutV)
  let h3 := write h2 "error" (getD "error" .stderrV)
  (r, h3)

end Pipes

/-- A concrete one-object heap for the C10 witness: the caller's dict is
reference 0 and holds a single custom input stream. -/
def heapC : DictHeap :=
  { vals := fun q => if q = 0 then
      (fun k => if k = "input" then some (.custom 7) else Option.none)
    else (fun _ => Option.none),
    next := 1 }

namespace Pipes

theorem inv_init (w : Nat → Text) (pit : Text) (n : Nat) :
    Inv w pit n 0 commInit := by
  refine ⟨rfl, rfl, rfl, rfl, ?_, ?_⟩
  · intro h; omega
  · intro j hj; omega

theorem inv_step (w : Nat → Text) (pit : Text) (n k : Nat) (st : WireState)
    (hk : k < n) (h : Inv w pit n k st) :
    Inv w pit n (k + 1) (commStep w pit n k st) := by
  obtain ⟨h1, h2, h3, h4, h5, h6⟩ := h
  by_cases hk0 : k = 0
  · subst hk0
    have h3' : st.inS = Option.none := by simpa using h3
    by_cases hn1 : n = 1
    · subst hn1
      refine ⟨?_, ?_, ?_, ?_, fun _ => ?_, ?_⟩
      · simp [commStep, setBuf, setRec, h1]
      · simp [commStep, setBuf, setRec, h1, h2]
      · simp [commStep, setBuf, setRec, h2]
      · simp [commStep, setBuf, setRec, h1, h2, h4]
      · simp [commStep, setBuf, setRec, h1, h2, h4, emptyBuf]
      · intro j hj
        have hj0 : j = 0 := by omega
        subst hj0
        simp [commStep, setBuf, setRec, recSpec, h2, h3']
    · have hn0 : ¬ ((0 : Nat) = n - 1) := by omega
      refine ⟨?_, ?_, ?_, ?_, fun _ => ?_, ?_⟩
      · simp [commStep, setBuf, setRec, h1, hn0]
      · simp [commStep, setBuf, setRec, h1, h2, hn0]
      · simp [commStep, setBuf, setRec, h2, hn0]
      · simp [commStep, setBuf, setRec, h1, h2, h4, hn0]
      · simp [commStep, setBuf, setRec, h1, h2, h4, hn0, emptyBuf, bufWrite]
      · intro j hj
        have hj0 : j = 0 := by omega
        subst hj0
        simp [commStep, setBuf, setRec, recSpec, h2, h3', hn0]
  · have h3' : st.inS = some (k - 1) := by
      rw [h3, if_neg hk0]
    have hknn : ¬ (k - 1 = n - 1) := by omega
    have hb : st.buf (k - 1) = ⟨w (k - 1), 0⟩ := by
      rw [h5 (by omega), if_neg hknn]
    have a1 : ¬ (k = k - 1) := by omega
    have a2 : ¬ (k + 1 = k) := by omega
    have a3 : ¬ (k + 1 = k - 1) := by omega
    have a4 : ¬ (k = k + 1) := by omega
    by_cases hlast : k = n - 1
    · have hn : n = k + 1 := by omega
      subst hn
      have a5 : ¬ (k - 1 = k) := by omega
      refine ⟨?_, ?_, ?_, ?_, fun _ => ?_, ?_⟩
      · simp [commStep, setBuf, setRec, h1, h3', hk0]
      · simp [commStep, setBuf, setRec, h1, h2, h3', hk0]
      · simp [commStep, setBuf, setRec, h2, h3', hk0]
      · simp [commStep, setBuf, setRec, h1, h2, h3', h4, hk0, a2, a3]
      · simp [commStep, setBuf, setRec, h1, h2, h3', h4, hk0, a1, a2,
          a3, a4, a5, emptyBuf, hb, bufRead]
      · intro j hj
        by_cases hjk : j = k
        · subst hjk
          simp [commStep, setBuf, setRec, recSpec, h2, h3', hk0, hb,
            bufRead]
        · have hjlt : j < k := by omega
          have hrec := h6 j hjlt
          simp [commStep, setBuf, setRec, h3', hk0, hjk]
          exact hrec
    · refine ⟨?_, ?_, ?_, ?_, fun _ => ?_, ?_⟩
      · simp [commStep, setBuf, setRec, h1, h3', hk0, hlast]
      · simp [commStep, setBuf, setRec, h1, h2, h3', hk0, hlast]
      · simp [commStep, setBuf, setRec, h2, h3', hk0, hlast]
      · simp [commStep, setBuf, setRec, h1, h2, h3', h4, hk0, hlast, a1, a2,
          a3]
      · simp [commStep, setBuf, setRec, h1, h2, h3', h4, hk0, hlast, a1, a2,
          a3, a4, emptyBuf, hb, bufRead, bufWrite]
      · intro j hj
        by_cases hjk : j = k
        · subst hjk
          simp [commStep, setBuf, setRec, recSpec, h2, h3', hk0, hlast, hb,
            bufRead]
        · have hjlt : j < k := by omega
          have hrec := h6 j hjlt
          simp [commStep, setBuf, setRec, h3', hk0, hlast, hjk]
          exact hrec

theorem commList_append (w : Nat → Text) (pit : Text) (n : Nat)
    (l1 l2 : List Nat) (st : WireState) :
    commList w pit n (l1 ++ l2) st = commList w pit n l2 (commList w pit n l1 st) := by
  induction l1 generalizing st with
  | nil => rfl
  | cons i rest ih => simp [commList, ih]

theorem inv_comm (w : Nat → Text) (pit : Text) (n : Nat) :
    ∀ k, k ≤ n → Inv w pit n k (commList w pit n (List.range k) commInit) := by
  intro k
  induction k with
  | zero => intro _; exact inv_init w pit n
  | succ k ih =>
    intro hk
    rw [List.range_succ, commList_append]
    exact inv_step w pit n k _ (by omega) (ih (by omega))

theorem inv_communicate (w : Nat → Text) (pit : Text) (n : Nat) :
    Inv w pit n n (communicate w pit n) :=
  inv_comm w pit n n le_rfl

end Pipes

/-- C2: in the precedence scenario of the specification — stage
`default_parameters` x = 1, pipeline `pipe_parameters` x = 2 — the live
lifecycle (`Pipe._instanciate_process` seeding followed by `Process.execute`'s
merge and acquire-input steps, pipes.py) yields x = 3 when the stage input
stream holds `x: 3`, as claimed; but with an empty input stream the lifecycle
does not yield x = 2 (nor x = 1 when `pipe_parameters` is also empty): it
raises `TypeError`, because `yaml.load` of the empty stream returns `None` and
`self.parameters.update(None)` fails.  The claimed empty-stream outcomes are
therefore unreachable on the code. -/
theorem lifecycle_empty_input_precedence_bug :
    xAfter (Pipes.execute_merge_and_input yamlLoadC
      (Pipes.instanciate_parameters stageDefaultsX1 Option.none "bashcommand")
      pipeParamsX2 "x: 3") = .ok (some (.i 3))
    ∧ Pipes.execute_merge_and_input yamlLoadC
      (Pipes.instanciate_parameters stageDefaultsX1 Option.none "bashcommand")
      pipeParamsX2 "" = .error .typeErrorUpdateNone
    ∧ Pipes.execute_merge_and_input yamlLoadC
      (Pipes.instanciate_parameters stageDefaultsX1 Option.none "bashcommand")
      emptyP "" = .error .typeErrorUpdateNone :=
  ⟨rfl, rfl, rfl⟩

/-- C4: the acquire-input step of the live module (`Process.parse_input`,
pipes.py) raises on a non-empty unparseable stream as claimed, but an empty
input stream is not a no-op: `yaml.load('')` returns `None` and
`self.parameters.update(None)` raises `TypeError`.  The legacy module's
`parse_input` (`__init__.py`), by contrast, implements the claimed behaviour:
an empty stream returns with the parameters unchanged, and a non-empty
unparseable stream raises the `json.loads` error. -/
theorem parse_input_empty_stream_bug :
    Pipes.parse_input yamlLoadC stageDefaultsX1 "" = .error .typeErrorUpdateNone
    ∧ Legacy.parse_input id jsonLoadsC stageDefaultsX1 "" = .ok stageDefaultsX1
    ∧ Pipes.parse_input yamlLoadC stageDefaultsX1 "x: [3"
      = .error (.parserError "while parsing a flow node")
    ∧ Legacy.parse_input id jsonLoadsC stageDefaultsX1 "bad"
      = .error (.jsonValueError "No JSON object could be decoded") :=
  ⟨rfl, rfl, rfl, rfl⟩

/-- C5: after a run of the built-in shell stage (`BashCommand.run`,
`__init__.py`), `results` is seeded with a copy of the parameters, and a
file-backed stream is indeed not echoed into `results` (with both
`output_filepath` and `error_filepath` present the collection succeeds and
returns exactly the copied parameters).  But when a stream was not redirected
to a file, the captured buffer contents are not stored: the code calls
`command_output.get_value()`, an attribute `StringIO` does not have (the
accessor is `getvalue`), so the run raises `AttributeError` instead of
populating `results['output']` / `results['error']`. -/
theorem bash_collect_results_attribute_bug :
    Legacy.bash_collect_results bashParamsNoFiles "hi" ""
      = .error (.attributeError "get_value")
    ∧ Legacy.bash_collect_results bashParamsBothFiles "hi" ""
      = .ok (dictUpdate emptyP bashParamsBothFiles) :=
  ⟨rfl, rfl⟩

/-- C6: stage resolution does not prefix the original identifier with each
namespace separately.  With namespaces `[a, b]` and type `T`, the loop in
`Pipe.find_process_class` (pipes.py) reassigns `process_type`, so it attempts
module `a` and then module `b.a` — never module `b` — and therefore fails with
an `ImportError` naming the mangled identifier `b.a.T` (not the original `T`),
even though the type is available under namespace b (`importableC "b" = true`).
The list of namespaces searched is enumerated as claimed. -/
theorem find_process_class_namespace_chaining_bug :
    importableC "b" = true
    ∧ Pipes.find_process_class importableC (fun _ c => c = "T") ["a", "b"] "T"
      = .error (.importError "b.a.T" ["a", "b"]) :=
  ⟨rfl, rfl⟩

/-- C7: for every definition file whose base name does not end with the
required `.pipe` suffix, `Pipe.parse_definition_file` (pipes.py) raises the
wrong-filename definition error with a trace showing that only the name check
ran — the file body is never opened or deserialized, for every loader and every
content. -/
theorem parse_definition_file_checks_suffix_first
    (loadDef : String → Except String Params) (filepath content : String)
    (h : Pipes.endsWithChars (Pipes.basenameOf filepath) Pipes.pipe_extension
      = false) :
    Pipes.parse_definition_file loadDef filepath content
      = (.error (.wrongPipeFilename (Pipes.basenameOf filepath)),
         [.checkedName]) := by
  simp only [Pipes.parse_definition_file, h, Bool.false_eq_true, if_false]

/-- Witness for C7 at the specification's concrete input: the file
`plain.json`, whatever its content, fails on the name check alone. -/
theorem parse_definition_file_checks_suffix_first_witness :
    Pipes.parse_definition_file (fun _ => .error "boom") "plain.json"
      "chain: []"
      = (.error (.wrongPipeFilename "plain.json"), [.checkedName]) :=
  parse_definition_file_checks_suffix_first (fun _ => .error "boom")
    "plain.json" "chain: []" (by decide)

/-- C8 counterexample: with the serialization succeeding and the write to the
output stream failing, `Process.reduce` (pipes.py) propagates the write error
without flushing the output and error streams — the claimed flush-on-every-
exit-path does not hold. -/
theorem reduce_write_failure_skips_flush :
    Pipes.reduce (.ok "results") (fun _ => .error (.ioError "broken pipe"))
      = (.error (.ioError "broken pipe"), false) :=
  rfl

/-- C8 amended: the produce-output step serializes `results` and writes the
text to the stage's output stream, and the output and error streams are
flushed only on the fully successful path — the flush runs exactly when both
the serialization and the write succeed; a failure in either propagates
without the flush (there is no try/finally in `reduce`). -/
theorem reduce_flush_only_after_write
    (bake : Except PyErr String) (writeOut : String → Except PyErr Unit) :
    (Pipes.reduce bake writeOut).2 = true
      ↔ ∃ o, bake = .ok o ∧ writeOut o = .ok () := by
  cases bake with
  | error e => simp [Pipes.reduce]
  | ok o =>
    cases hw : writeOut o with
    | error e => simp [Pipes.reduce, hw]
    | ok u => cases u; simp [Pipes.reduce, hw]

/-- C9: a stage whose concrete type does not supply its own `run` inherits the
abstract base `Process.run` (pipes.py), whose body is a bare raise: whenever
the earlier lifecycle steps succeed, `execute` fails with the
unimplemented-stage error — the base contract provides no default behaviour,
no results are produced, and nothing is written to the output stream (it never
silently succeeds). -/
theorem execute_unimplemented_run_fails
    (yamlLoad : String → Except String YamlDoc) (yamlDump : Params → String)
    (params pipeParams p2 : Params) (inputText : String)
    (h : Pipes.parse_input yamlLoad (dictUpdate params pipeParams) inputText
      = .ok p2) :
    Pipes.execute yamlLoad Pipes.base_run yamlDump params pipeParams inputText
      = .error .unimplementedStage := by
  unfold Pipes.execute
  rw [h]
  rfl

/-- Witness for C9: executing a run-less stage on a parseable input stream
fails with the unimplemented-stage error. -/
theorem execute_unimplemented_run_fails_witness :
    Pipes.execute yamlLoadC Pipes.base_run (fun _ => "") emptyP emptyP "x: 3"
      = .error .unimplementedStage :=
  execute_unimplemented_run_fails yamlLoadC (fun _ => "") emptyP emptyP
    (dictUpdate (dictUpdate emptyP emptyP) (setKey emptyP "x" (.i 3))) "x: 3"
    rfl

/-- C1: in every `Pipe.communicate` run over a non-empty chain of `n` stages
(pipes.py), the stage at index `n - 1` executes with its `output` handle bound
to the pipeline-level output stream (the binding is the wiring step at the top
of that stage's loop iteration, before `execute_process` runs, and the record
holds the handles in force during execution); and for a single-stage chain the
one stage executes with its `input` handle bound to the pipeline-level input
stream and its `output` handle to the pipeline-level output stream — no
intermediate buffer is interposed. -/
theorem communicate_last_stage_output_binding (w : Nat → Text) (pit : Text)
    (n : Nat) (hn : 0 < n) :
    ((Pipes.communicate w pit n).recs (n - 1)).outH = Handle.pipeOut
    ∧ (n = 1 →
        ((Pipes.communicate w pit n).recs 0).inH = Handle.pipeIn
        ∧ ((Pipes.communicate w pit n).recs 0).outH = Handle.pipeOut) := by
  obtain ⟨-, -, -, -, -, hrec⟩ := Pipes.inv_communicate w pit n
  constructor
  · rw [hrec (n - 1) (by omega), Pipes.recSpec]
    simp
  · intro h1
    subst h1
    rw [hrec 0 (by omega), Pipes.recSpec]
    exact ⟨rfl, rfl⟩

/-- Witness for C1 on a concrete single-stage pipeline. -/
theorem communicate_last_stage_output_binding_witness :
    ((Pipes.communicate (fun _ => ['a']) ['p'] 1).recs 0).outH = Handle.pipeOut
    ∧ ((Pipes.communicate (fun _ => ['a']) ['p'] 1).recs 0).inH
      = Handle.pipeIn := by
  obtain ⟨h1, h2⟩ :=
    communicate_last_stage_output_binding (fun _ => ['a']) ['p'] 1 (by decide)
  exact ⟨h1, (h2 rfl).1⟩

/-- C3: in every `Pipe.communicate` run over `n ≥ 2` stages (pipes.py), each
inter-stage edge `i → i+1` (for `i < n - 1`) is carried by the in-memory
buffer with allocation number `i`, freshly allocated for that edge (distinct
edges use distinct buffers, since the allocation number equals the edge
index): stage `i` executes with its `output` handle bound to that buffer,
stage `i+1` executes with its `input` handle bound to the same buffer, the
buffer's position is `0` at the moment stage `i+1` reads it (it was rewound by
the loop's `seek(0)` after stage `i` wrote it end-to-end), and the text stage
`i+1` reads from it is exactly `w i`, the output stage `i` wrote. -/
theorem communicate_edge_buffer_handoff (w : Nat → Text) (pit : Text)
    (n i : Nat) (hn : 2 ≤ n) (hi : i < n - 1) :
    ((Pipes.communicate w pit n).recs i).outH = Handle.buffer i
    ∧ ((Pipes.communicate w pit n).recs (i + 1)).inH = Handle.buffer i
    ∧ ((Pipes.communicate w pit n).recs (i + 1)).posAtRead = some 0
    ∧ ((Pipes.communicate w pit n).recs (i + 1)).readText = w i := by
  obtain ⟨-, -, -, -, -, hrec⟩ := Pipes.inv_communicate w pit n
  have hri := hrec i (by omega)
  have hri1 := hrec (i + 1) (by omega)
  rw [hri, hri1, Pipes.recSpec, Pipes.recSpec]
  have e1 : ¬ (i = n - 1) := by omega
  have e2 : ¬ (i + 1 = 0) := by omega
  refine ⟨?_, ?_, ?_, ?_⟩ <;> simp [e1, e2]

/-- Witness for C3 on a concrete two-stage pipeline: the single edge uses
buffer 0 on both sides, rewound, and the second stage reads exactly the text
the first stage wrote. -/
theorem communicate_edge_buffer_handoff_witness :
    ((Pipes.communicate (fun j => if j = 0 then ['h', 'i'] else ['z'])
      ['p'] 2).recs 0).outH = Handle.buffer 0
    ∧ ((Pipes.communicate (fun j => if j = 0 then ['h', 'i'] else ['z'])
      ['p'] 2).recs (0 + 1)).inH = Handle.buffer 0
    ∧ ((Pipes.communicate (fun j => if j = 0 then ['h', 'i'] else ['z'])
      ['p'] 2).recs (0 + 1)).posAtRead = some 0
    ∧ ((Pipes.communicate (fun j => if j = 0 then ['h', 'i'] else ['z'])
      ['p'] 2).recs (0 + 1)).readText
      = (fun j => if j = 0 then ['h', 'i'] else ['z']) 0 :=
  communicate_edge_buffer_handoff
    (fun j => if j = 0 then ['h', 'i'] else ['z']) ['p'] 2 0 (by decide)
    (by decide)

/-- C10: `Pipe._get_default_streams` (pipes.py) does not mutate the
caller-supplied `pipe_streams` dict: for any heap and any live caller
reference, after the call the caller's dict holds exactly the entries it held
before; the returned dict is a distinct, fresh object; and it is that fresh
dict that carries the defaults — each of the three stream names maps to the
caller's entry when present and to the process-standard stream otherwise (and
it has no other entries).  Since `communicate` only rebinds its local variable
to the returned dict, the caller's mapping is unchanged when `communicate`
returns. -/
theorem get_default_streams_preserves_caller (h : DictHeap) (streams : Nat)
    (hs : streams < h.next) :
    (Pipes.get_default_streams h streams).2.vals streams = h.vals streams
    ∧ (Pipes.get_default_streams h streams).1 ≠ streams
    ∧ ∀ k, (Pipes.get_default_streams h streams).2.vals
        (Pipes.get_default_streams h streams).1 k
      = (if k = "error" then some ((h.vals streams "error").getD .stderrV)
        else if k = "output" then some ((h.vals streams "output").getD .stdoutV)
        else if k = "input" then some ((h.vals streams "input").getD .stdinV)
        else Option.none) := by
  have hne : ¬ (streams = h.next) := by omega
  refine ⟨?_, ?_, ?_⟩
  · simp [Pipes.get_default_streams, hne]
  · simp [Pipes.get_default_streams]
    omega
  · intro k
    simp [Pipes.get_default_streams]

/-- Witness for C10 on the concrete heap: the caller's dict is untouched, the
returned dict is a different object, and it holds the caller's input stream
and the default error stream. -/
theorem get_default_streams_preserves_caller_witness :
    (Pipes.get_default_streams heapC 0).2.vals 0 = heapC.vals 0
    ∧ (Pipes.get_default_streams heapC 0).1 ≠ 0
    ∧ (Pipes.get_default_streams heapC 0).2.vals
        (Pipes.get_default_streams heapC 0).1 "error"
      = some ((heapC.vals 0 "error").getD .stderrV)
    ∧ (Pipes.get_default_streams heapC 0).2.vals
        (Pipes.get_default_streams heapC 0).1 "input"
      = some ((heapC.vals 0 "input").getD .stdinV) := by
  obtain ⟨a, b, c⟩ := get_default_streams_preserves_caller heapC 0 (by decide)
  refine ⟨a, b, ?_, ?_⟩
  · simpa using c "error"
  · simpa using c "input"
